import Mathlib

/-!
# Verification of the k8s-cli navigation / orchestration engine

Shallow embedding of `internal/model/model.go` (the Elm-style `Model`,
`Init` and `Update` of the terminal dashboard) together with the data
types it consumes from `internal/resources/types.go`.

Conventions of the embedding:
* The bubbletea `spinner.Model` field and the `spinner.Tick` commands are
  presentation-only plumbing (they never touch the semantic state), so the
  spinner is dropped from the state and `tea.Batch(m.spinner.Tick, c)` is
  embedded as the single semantic command `c`.
* Go `error` values are embedded as `Option String`: `none` is a nil
  error, `some e` an error whose `%v` rendering is `e`.
* Go `int` fields that stay non-negative in every reachable state
  (`selectedItem`, list lengths) are embedded as `Nat`; the Go comparison
  `selectedItem < len(xs)-1` agrees with the truncated Nat subtraction
  `selectedItem < xs.length - 1` for all non-negative `selectedItem`.
* Go slice indexing `xs[i]` panics when `i` is out of range; the
  embedding totalises it with `List.getD i default` and the out-of-range
  situation is treated explicitly where it matters (claim about bounds).
* `time.Time` is embedded as `Nat` (an opaque instant); maps as
  association lists.  These fields are carried only so that the data
  model matches the source record for record; the engine never reads them.
-/

/-- Container details (`resources.ContainerInfo`). -/
structure ContainerInfo where
  name : String
  image : String
  ready : Bool
  restartCount : Int
  state : String
  cpuRequest : String
  memoryRequest : String
  cpuLimit : String
  memoryLimit : String
  environmentVars : List (String × String)
deriving Repr, DecidableEq, Inhabited

/-- Essential pod information (`resources.PodInfo`).  The Go field
`Namespace` is rendered `namespaceName` (`namespace` is a Lean keyword). -/
structure PodInfo where
  name : String
  namespaceName : String
  status : String
  age : String
  ip : String
  node : String
  created : Nat
  labels : List (String × String)
  containers : List ContainerInfo
deriving Repr, DecidableEq, Inhabited

/-- Essential service information (`resources.ServiceInfo`).  The Go field
`Type` is rendered `svcType` (`type` is a Lean keyword). -/
structure ServiceInfo where
  name : String
  namespaceName : String
  svcType : String
  clusterIP : String
  externalIP : String
  ports : String
  age : String
  selector : List (String × String)
deriving Repr, DecidableEq, Inhabited

/-- All fetched resource information for one namespace
(`resources.ResourceData`): the resource snapshot. -/
structure ResourceData where
  pods : List PodInfo
  services : List ServiceInfo
deriving Repr, DecidableEq, Inhabited

/-- The four UI views (`resources.ViewType`).  The Go source uses string
constants; an enumeration is the faithful closed rendering. -/
inductive ViewType where
  | PodView
  | ServiceView
  | DetailView
  | NamespaceView
deriving Repr, DecidableEq, Inhabited

/-- Opaque handle to the cluster (`client.K8sClient`).  The engine only
stores and passes it along, never inspects it. -/
structure K8sClient where
deriving Repr, DecidableEq, Inhabited

/-- The semantic commands the engine can schedule.  Each fetch
constructor records the identity of the request exactly as the Go
closure captures it (the shared client handle is elided: every command
closes over the same `m.client`). `quit` renders `tea.Quit`. -/
inductive Cmd where
  | quit
  | initK8sClient
  | getContextInfo
  | getNamespaces
  | getResources (namespaceName : String)
  | getPodDetail (namespaceName : String) (name : String)
  | getServiceDetail (namespaceName : String) (name : String)
deriving Repr, DecidableEq, Inhabited

/-- The messages `Model.Update` branches on: key presses, window resize,
spinner ticks and the six fetch-completion messages, each completion
carrying its payload and its `err` field. -/
inductive Msg where
  | keyMsg (key : String)
  | windowSizeMsg (width : Int) (height : Int)
  | spinnerTick
  | k8sClientMsg (client : K8sClient) (err : Option String)
  | contextInfoMsg (context : String) (err : Option String)
  | namespacesMsg (namespaces : List String) (err : Option String)
  | resourcesMsg (data : ResourceData) (err : Option String)
  | podDetailMsg (detail : String) (err : Option String)
  | serviceDetailMsg (detail : String) (err : Option String)
deriving Repr, DecidableEq, Inhabited

/-- The main application model (`model.Model`), spinner omitted. -/
structure Model where
  loading : Bool
  currentView : ViewType
  selectedItem : Nat
  width : Int
  height : Int
  message : String
  error : String
  client : Option K8sClient
  namespaces : List String
  currentNS : String
  context : String
  resourceData : ResourceData
  detailContent : String
deriving Repr, DecidableEq, Inhabited

/-- `model.New()`: the initial model.  Unset Go fields take their zero
values. -/
def Model.new : Model :=
  { loading := true
    currentView := ViewType.PodView
    selectedItem := 0
    width := 0
    height := 0
    message := "Connecting to Kubernetes cluster..."
    error := ""
    client := none
    namespaces := []
    currentNS := "default"
    context := ""
    resourceData := { pods := [], services := [] }
    detailContent := "" }

/-- `Model.Init()`: returns `tea.Batch(m.spinner.Tick, initK8sClient)`;
the semantic command is `initK8sClient`. -/
def Model.initCmd (_ : Model) : Option Cmd :=
  some Cmd.initK8sClient

/-- The `for i, ns := range m.namespaces { if ns == m.currentNS {
m.selectedItem = i; break } }` loop of the `"n"` key handler: first index
holding `target`, offset by the accumulator `i`; `none` when absent. -/
def findIdxFrom (i : Nat) (target : String) : List String → Option Nat
  | [] => none
  | ns :: rest => if ns = target then some i else findIdxFrom (i + 1) target rest

/-- The `"up", "k"` key handler: decrement `selectedItem` when positive,
gated on `!m.loading`. -/
def moveUp (m : Model) : Model :=
  if !m.loading then
    if m.selectedItem > 0 then { m with selectedItem := m.selectedItem - 1 } else m
  else m

/-- The `"down", "j"` key handler: increment `selectedItem` when below
`len(list)-1` for the list of the current view, gated on `!m.loading`.
(`DetailView` has no case in the Go switch: no movement.) -/
def moveDown (m : Model) : Model :=
  if !m.loading then
    match m.currentView with
    | ViewType.PodView =>
        if m.selectedItem < m.resourceData.pods.length - 1 then
          { m with selectedItem := m.selectedItem + 1 } else m
    | ViewType.ServiceView =>
        if m.selectedItem < m.resourceData.services.length - 1 then
          { m with selectedItem := m.selectedItem + 1 } else m
    | ViewType.NamespaceView =>
        if m.selectedItem < m.namespaces.length - 1 then
          { m with selectedItem := m.selectedItem + 1 } else m
    | ViewType.DetailView => m
  else m

/-- The `"enter"` key handler.  In `PodView`/`ServiceView` with a
non-empty list: switch to `DetailView`, set `loading`, schedule the
detail fetch for the item at `selectedItem` (Go indexes the slice
directly; the embedding totalises with `getD`).  In `NamespaceView` with
a non-empty list: adopt the namespace at `selectedItem`, switch to
`PodView`, set `loading`, schedule the resource fetch.  Everything else,
or while loading: no-op. -/
def enterKey (m : Model) : Model × Option Cmd :=
  if !m.loading then
    match m.currentView with
    | ViewType.PodView =>
        if m.resourceData.pods.length > 0 then
          let selectedPod := m.resourceData.pods.getD m.selectedItem default
          ({ m with currentView := ViewType.DetailView, loading := true },
           some (Cmd.getPodDetail selectedPod.namespaceName selectedPod.name))
        else (m, none)
    | ViewType.ServiceView =>
        if m.resourceData.services.length > 0 then
          let selectedSvc := m.resourceData.services.getD m.selectedItem default
          ({ m with currentView := ViewType.DetailView, loading := true },
           some (Cmd.getServiceDetail selectedSvc.namespaceName selectedSvc.name))
        else (m, none)
    | ViewType.NamespaceView =>
        if m.namespaces.length > 0 then
          let ns := m.namespaces.getD m.selectedItem ""
          ({ m with currentNS := ns, currentView := ViewType.PodView, loading := true,
                    message := "Switching to namespace: " ++ ns },
           some (Cmd.getResources ns))
        else (m, none)
    | ViewType.DetailView => (m, none)
  else (m, none)

/-- The `tea.KeyMsg` branch of `Model.Update`: dispatch on
`msg.String()`.  Unmatched keys fall through to the spinner update and
change no semantic state. -/
def handleKey (m : Model) (key : String) : Model × Option Cmd :=
  match key with
  | "ctrl+c" => (m, some Cmd.quit)
  | "q" => (m, some Cmd.quit)
  | "p" =>
      (if !m.loading then
        { m with currentView := ViewType.PodView, selectedItem := 0 }
       else m, none)
  | "s" =>
      (if !m.loading then
        { m with currentView := ViewType.ServiceView, selectedItem := 0 }
       else m, none)
  | "esc" =>
      (if m.currentView = ViewType.DetailView then
        { m with currentView := ViewType.PodView }
       else if m.currentView = ViewType.NamespaceView then
        { m with currentView := ViewType.PodView }
       else m, none)
  | "up" => (moveUp m, none)
  | "k" => (moveUp m, none)
  | "down" => (moveDown m, none)
  | "j" => (moveDown m, none)
  | "enter" => enterKey m
  | "r" =>
      if !m.loading then
        ({ m with loading := true, message := "Refreshing resources..." },
         some (Cmd.getResources m.currentNS))
      else (m, none)
  | "n" =>
      (if !m.loading then
        { m with currentView := ViewType.NamespaceView,
                 selectedItem := (findIdxFrom 0 m.currentNS m.namespaces).getD m.selectedItem }
       else m, none)
  | _ => (m, none)

/-- `Model.Update`: the full message dispatch of the engine.  Returned
commands are the semantic commands of the scheduled `tea.Cmd`
(`tea.Batch` with the spinner tick elided). -/
def Model.update (m : Model) (msg : Msg) : Model × Option Cmd :=
  match msg with
  | Msg.keyMsg key => handleKey m key
  | Msg.windowSizeMsg w h => ({ m with width := w, height := h }, none)
  | Msg.spinnerTick => (m, none)
  | Msg.k8sClientMsg c err =>
      match err with
      | some e =>
          ({ m with loading := false,
                    error := "Error connecting to Kubernetes: " ++ e }, none)
      | none =>
          ({ m with client := some c, message := "Getting context information..." },
           some Cmd.getContextInfo)
  | Msg.contextInfoMsg ctx err =>
      ({ m with context := (match err with | some _ => "unknown-context" | none => ctx),
                message := "Fetching namespaces..." },
       some Cmd.getNamespaces)
  | Msg.namespacesMsg ns err =>
      match err with
      | some e =>
          ({ m with loading := false,
                    error := "Error fetching namespaces: " ++ e }, none)
      | none =>
          ({ m with namespaces := ns, message := "Fetching resources..." },
           some (Cmd.getResources m.currentNS))
  | Msg.resourcesMsg d err =>
      match err with
      | some e =>
          ({ m with loading := false,
                    error := "Error fetching resources: " ++ e }, none)
      | none =>
          ({ m with loading := false, resourceData := d }, none)
  | Msg.podDetailMsg d err =>
      match err with
      | some e =>
          ({ m with loading := false,
                    error := "Error fetching pod details: " ++ e }, none)
      | none =>
          ({ m with loading := false, detailContent := d }, none)
  | Msg.serviceDetailMsg d err =>
      match err with
      | some e =>
          ({ m with loading := false,
                    error := "Error fetching service details: " ++ e }, none)
      | none =>
          ({ m with loading := false, detailContent := d }, none)

/-- Run a sequence of messages through `Model.update`, keeping only the
state (commands are executed by the host event loop). -/
def runMsgs (m : Model) (msgs : List Msg) : Model :=
  msgs.foldl (fun s msg => (s.update msg).1) m

/-! ## Concrete fixtures

Small cluster contents used by the counterexample and witness theorems.
Each trace below delivers only completions for fetches the engine has
actually scheduled at that point (the startup chain, then completions of
refresh / detail fetches), so every final state is reachable in the real
event loop. -/

/-- A sample workload. -/
def podA : PodInfo :=
  { name := "web-1", namespaceName := "default", status := "Running", age := "1d",
    ip := "10.0.0.1", node := "node-1", created := 0, labels := [], containers := [] }

/-- A second sample workload. -/
def podB : PodInfo := { podA with name := "web-2" }

/-- A sample endpoint. -/
def svcA : ServiceInfo :=
  { name := "svc-1", namespaceName := "default", svcType := "ClusterIP",
    clusterIP := "10.96.0.1", externalIP := "", ports := "80/TCP", age := "1d",
    selector := [] }

/-- A successful startup: connection, context, two namespaces, a snapshot
with two pods and one service for `"default"`. -/
def startupOk : List Msg :=
  [ Msg.k8sClientMsg {} none,
    Msg.contextInfoMsg "prod-context" none,
    Msg.namespacesMsg ["default", "kube-system"] none,
    Msg.resourcesMsg { pods := [podA, podB], services := [svcA] } none ]

/-- Move the selection to the second pod, refresh, and complete the
refresh with a snapshot holding a single pod. -/
def shrinkTrace : List Msg :=
  startupOk ++
  [ Msg.keyMsg "down", Msg.keyMsg "r",
    Msg.resourcesMsg { pods := [podA], services := [svcA] } none ]

/-- Refresh fails with `"timeout"`, then a second refresh succeeds. -/
def retryTrace : List Msg :=
  startupOk ++
  [ Msg.keyMsg "r", Msg.resourcesMsg default (some "timeout"),
    Msg.keyMsg "r",
    Msg.resourcesMsg { pods := [podA, podB], services := [svcA] } none ]

/-- Drill into the first pod: the engine is now in `DetailView` with the
detail fetch pending (`loading = true`). -/
def detailPending : Model :=
  runMsgs Model.new (startupOk ++ [Msg.keyMsg "enter"])

/-- Open the namespace picker from the happy-path state and move down to
the second namespace. -/
def pickerSecond : Model :=
  runMsgs Model.new (startupOk ++ [Msg.keyMsg "n", Msg.keyMsg "down"])

/-- A startup whose namespace list does not contain `"default"` (the
active namespace), followed by moving the pod selection down. -/
def absentNsTrace : List Msg :=
  [ Msg.k8sClientMsg {} none,
    Msg.contextInfoMsg "prod-context" none,
    Msg.namespacesMsg ["kube-system"] none,
    Msg.resourcesMsg { pods := [podA, podB], services := [] } none,
    Msg.keyMsg "down" ]

/-- From the happy-path end state, drill into a pod and have the detail
fetch fail. -/
def detailFailTrace : List Msg :=
  startupOk ++ [ Msg.keyMsg "enter", Msg.podDetailMsg "" (some "boom") ]

/-! ## The host event loop

The bubbletea runtime processes one message at a time and runs each
returned command asynchronously; the command's result re-enters the loop
as a completion message.  `LoopState` pairs the model with the fetch
currently in flight (if any): scheduling a fetch makes it pending, and a
completion may only be delivered for the pending fetch it answers
(`msgCompletes`).  Key presses, resizes and spinner ticks can be
delivered at any time. -/

/-- Whether a command is one of the six asynchronous fetches (everything
except `quit`). -/
def Cmd.isFetch : Cmd → Bool
  | Cmd.quit => false
  | _ => true

/-- Whether `msg` is the completion of the fetch `c`. -/
def msgCompletes (msg : Msg) (c : Cmd) : Bool :=
  match msg, c with
  | Msg.k8sClientMsg _ _, Cmd.initK8sClient => true
  | Msg.contextInfoMsg _ _, Cmd.getContextInfo => true
  | Msg.namespacesMsg _ _, Cmd.getNamespaces => true
  | Msg.resourcesMsg _ _, Cmd.getResources _ => true
  | Msg.podDetailMsg _ _, Cmd.getPodDetail _ _ => true
  | Msg.serviceDetailMsg _ _, Cmd.getServiceDetail _ _ => true
  | _, _ => false

/-- The model together with the fetch currently in flight. -/
structure LoopState where
  model : Model
  pending : Option Cmd
deriving Repr, DecidableEq

/-- Deliver a key press: a newly scheduled fetch becomes pending
(overwriting), `quit` and no-ops leave the pending fetch alone. -/
def stepInput (s : LoopState) (k : String) : LoopState :=
  { model := (s.model.update (Msg.keyMsg k)).1,
    pending :=
      match (s.model.update (Msg.keyMsg k)).2 with
      | some c => if c.isFetch then some c else s.pending
      | none => s.pending }

/-- Deliver the completion of the pending fetch: it is consumed, and any
newly scheduled fetch becomes pending. -/
def stepComplete (s : LoopState) (msg : Msg) : LoopState :=
  { model := (s.model.update msg).1,
    pending :=
      match (s.model.update msg).2 with
      | some c => if c.isFetch then some c else none
      | none => none }

/-- Deliver a resize or spinner tick: the pending fetch is untouched. -/
def stepEnv (s : LoopState) (msg : Msg) : LoopState :=
  { model := (s.model.update msg).1, pending := s.pending }

/-- Loop states reachable from startup (`model.New()` with
`initK8sClient` scheduled by `Init`). -/
inductive Reachable : LoopState → Prop where
  | init : Reachable ⟨Model.new, some Cmd.initK8sClient⟩
  | input (s : LoopState) (k : String) : Reachable s → Reachable (stepInput s k)
  | resize (s : LoopState) (w h : Int) :
      Reachable s → Reachable (stepEnv s (Msg.windowSizeMsg w h))
  | tick (s : LoopState) : Reachable s → Reachable (stepEnv s Msg.spinnerTick)
  | complete (s : LoopState) (msg : Msg) (c : Cmd) :
      Reachable s → s.pending = some c → msgCompletes msg c = true →
      Reachable (stepComplete s msg)

/-! ## Helper lemmas about the key handlers -/

/-- When the target namespace is absent, the selection-restoring loop
finds nothing. -/
theorem findIdxFrom_eq_none (target : String) (l : List String) (hmem : target ∉ l)
    (i : Nat) : findIdxFrom i target l = none := by
  induction l generalizing i with
  | nil => rfl
  | cons x xs ih =>
      simp only [List.mem_cons, not_or] at hmem
      simp [findIdxFrom, hmem.1, Ne.symm hmem.1, ih hmem.2]

/-- When the target namespace is present, the loop returns the offset of
its first occurrence, which is a sound index for it. -/
theorem findIdxFrom_eq_some (target : String) (l : List String) (hmem : target ∈ l)
    (i : Nat) :
    ∃ j, findIdxFrom i target l = some (i + j) ∧ j < l.length ∧ l.getD j "" = target := by
  induction l generalizing i with
  | nil => cases hmem
  | cons x xs ih =>
      by_cases hx : x = target
      · exact ⟨0, by simp [findIdxFrom, hx], by simp, by simp [hx]⟩
      · have hmem' : target ∈ xs := by
          rcases List.mem_cons.mp hmem with h | h
          · exact absurd h.symm hx
          · exact h
        obtain ⟨j, hfind, hlt, hget⟩ := ih hmem' (i + 1)
        refine ⟨j + 1, ?_, by simpa using Nat.succ_lt_succ hlt, by simpa using hget⟩
        simp only [findIdxFrom, hx, if_false, ite_false]
        rw [hfind]
        congr 1
        omega

/-- While `loading` is set, every key press either schedules nothing or
schedules `quit`, and the resulting model is still loading. -/
theorem handleKey_loading_blocks (m : Model) (k : String) (h : m.loading = true) :
    ((handleKey m k).2 = none ∨ (handleKey m k).2 = some Cmd.quit) ∧
    (handleKey m k).1.loading = true := by
  unfold handleKey
  split <;> (simp [moveUp, moveDown, enterKey, h]; try (split_ifs <;> simp [h]))

/-- If `enterKey` schedules a command, the resulting model is loading. -/
theorem enterKey_fetch_loading (m : Model) (c : Cmd) (hc : (enterKey m).2 = some c) :
    (enterKey m).1.loading = true := by
  by_cases hl : m.loading
  · simp [enterKey, hl] at hc
  · cases hv : m.currentView with
    | PodView =>
        by_cases hp : m.resourceData.pods.length > 0 <;>
          simp [enterKey, hl, hv, hp] at hc ⊢
    | ServiceView =>
        by_cases hp : m.resourceData.services.length > 0 <;>
          simp [enterKey, hl, hv, hp] at hc ⊢
    | NamespaceView =>
        by_cases hp : m.namespaces.length > 0 <;>
          simp [enterKey, hl, hv, hp] at hc ⊢
    | DetailView => simp [enterKey, hl, hv] at hc

/-- If a key press schedules a fetch, the resulting model is loading. -/
theorem handleKey_fetch_loading (m : Model) (k : String) :
    ∀ c, (handleKey m k).2 = some c → c.isFetch = true →
      (handleKey m k).1.loading = true := by
  unfold handleKey
  split
  all_goals intro c hc hf
  all_goals first
    | exact Option.noConfusion hc
    | (have h2 : Cmd.quit = c := Option.some.inj hc
       subst h2
       simp [Cmd.isFetch] at hf)
    | exact enterKey_fetch_loading m c hc
    | (by_cases hl : m.loading
       · rw [hl] at hc
         exact Option.noConfusion hc
       · simp [hl])

/-- `enterKey` never touches the fetched data. -/
theorem enterKey_data_frame (m : Model) :
    (enterKey m).1.resourceData = m.resourceData ∧
    (enterKey m).1.namespaces = m.namespaces ∧
    (enterKey m).1.detailContent = m.detailContent := by
  by_cases hl : m.loading
  · simp [enterKey, hl]
  · cases hv : m.currentView with
    | PodView =>
        by_cases hp : m.resourceData.pods.length > 0 <;> simp [enterKey, hl, hv, hp]
    | ServiceView =>
        by_cases hp : m.resourceData.services.length > 0 <;> simp [enterKey, hl, hv, hp]
    | NamespaceView =>
        by_cases hp : m.namespaces.length > 0 <;> simp [enterKey, hl, hv, hp]
    | DetailView => simp [enterKey, hl, hv]

/-- The key invariant of the loop: whenever a fetch is in flight, the
model is loading. -/
theorem reachable_pending_loading (s : LoopState) (hs : Reachable s) :
    s.pending.isSome = true → s.model.loading = true := by
  induction hs with
  | init => intro _; rfl
  | input s k hr ih =>
      intro hp
      by_cases hl : s.model.loading = true
      · exact (handleKey_loading_blocks s.model k hl).2
      · have hpn : s.pending = none := by
          cases hq : s.pending with
          | none => rfl
          | some c => exact absurd (ih (by simp [hq])) hl
        show (handleKey s.model k).1.loading = true
        rcases hc : (handleKey s.model k).2 with _ | c
        · simp [stepInput, Model.update, hc, hpn] at hp
        · by_cases hf : c.isFetch = true
          · exact handleKey_fetch_loading s.model k c hc hf
          · simp [stepInput, Model.update, hc, hf, hpn] at hp
  | resize s w h hr ih =>
      intro hp
      simpa [stepEnv, Model.update] using ih hp
  | tick s hr ih =>
      intro hp
      simpa [stepEnv, Model.update] using ih hp
  | complete s msg c0 hr hpend hcm ih =>
      intro hp
      have hl : s.model.loading = true := ih (by simp [hpend])
      cases msg with
      | keyMsg k =>
          rcases (handleKey_loading_blocks s.model k hl).1 with h2 | h2 <;>
            simp [stepComplete, Model.update, h2, Cmd.isFetch] at hp
      | windowSizeMsg w h => simp [stepComplete, Model.update] at hp
      | spinnerTick => simp [stepComplete, Model.update] at hp
      | k8sClientMsg c e =>
          cases e <;> simp [stepComplete, Model.update, Cmd.isFetch] at hp ⊢
          all_goals exact hl
      | contextInfoMsg ctx e =>
          cases e <;> simp [stepComplete, Model.update, Cmd.isFetch] <;> exact hl
      | namespacesMsg ns e =>
          cases e <;> simp [stepComplete, Model.update, Cmd.isFetch] at hp ⊢
          all_goals exact hl
      | resourcesMsg d e =>
          cases e <;> simp [stepComplete, Model.update, Cmd.isFetch] at hp
      | podDetailMsg d e =>
          cases e <;> simp [stepComplete, Model.update, Cmd.isFetch] at hp
      | serviceDetailMsg d e =>
          cases e <;> simp [stepComplete, Model.update, Cmd.isFetch] at hp

/-! ## The claims -/

/-- Claim C1, counterexample.  After the happy-path startup, a refresh
fails with `"timeout"` and a second refresh succeeds (`retryTrace`): the
claim says the successful resource-snapshot completion sets
`errorMessage` to the empty string, but the error survives — `Update`
never clears `m.error` on success. -/
theorem C1_counterexample :
    (runMsgs Model.new retryTrace).error ≠ "" ∧
    (runMsgs Model.new retryTrace).error = "Error fetching resources: timeout" ∧
    (runMsgs Model.new retryTrace).loading = false := by
  refine ⟨?_, rfl, rfl⟩
  decide

/-- Claim C1, amended.  A successful resource-snapshot or detail
completion replaces the corresponding entity (`resourceData` or
`detailContent`) wholesale and sets `loading` to `false`, but leaves
`errorMessage` unchanged — it is not cleared. -/
theorem C1_success_frame (m : Model) (d : ResourceData) (s t : String) :
    m.update (Msg.resourcesMsg d none) =
      ({ m with loading := false, resourceData := d }, none) ∧
    m.update (Msg.podDetailMsg s none) =
      ({ m with loading := false, detailContent := s }, none) ∧
    m.update (Msg.serviceDetailMsg t none) =
      ({ m with loading := false, detailContent := t }, none) ∧
    (m.update (Msg.resourcesMsg d none)).1.error = m.error ∧
    (m.update (Msg.podDetailMsg s none)).1.error = m.error :=
  ⟨rfl, rfl, rfl, rfl, rfl⟩

/-- Claim C2: the selection-bound invariant fails on the code.  Along
`shrinkTrace` — a legitimate run (startup completions, `move-down`,
`refresh`, refresh completion) in which the refreshed snapshot shrinks
from two pods to one — the final state has `selectedIndex = 1` with a
pod list of length 1, outside `[0, length)`.  On this state the Go
`enter` handler would evaluate `m.resourceData.Pods[1]` on a one-element
slice and panic (index out of range). -/
theorem C2_violation :
    (runMsgs Model.new shrinkTrace).currentView = ViewType.PodView ∧
    (runMsgs Model.new shrinkTrace).loading = false ∧
    (runMsgs Model.new shrinkTrace).selectedItem = 1 ∧
    (runMsgs Model.new shrinkTrace).resourceData.pods.length = 1 ∧
    ¬((runMsgs Model.new shrinkTrace).selectedItem <
        (runMsgs Model.new shrinkTrace).resourceData.pods.length) := by
  refine ⟨rfl, rfl, rfl, rfl, ?_⟩
  decide

/-- Claim C3, counterexample.  `detailPending` is reachable (happy-path
startup, then `activate` on a pod) and has `loading = true`, yet the
`back` input (`esc`) still changes the state: the `esc` handler is not
gated on `loading`, so the view flips back to `PodView` while the detail
fetch is in flight. -/
theorem C3_counterexample :
    detailPending.loading = true ∧
    detailPending.currentView = ViewType.DetailView ∧
    (detailPending.update (Msg.keyMsg "esc")).1 ≠ detailPending ∧
    (detailPending.update (Msg.keyMsg "esc")).1.currentView = ViewType.PodView := by
  refine ⟨rfl, rfl, ?_, rfl⟩
  decide

/-- Claim C3, amended.  While `loading = true` every input other than
quit and `back` leaves the state unchanged and schedules nothing; the
`back` input (`esc`) is the exception: it still navigates, changing at
most `currentView` (to `PodView`) and scheduling nothing. -/
theorem C3_loading_inert (m : Model) (k : String) (hl : m.loading = true)
    (hk : k ∈ ["p", "s", "up", "k", "down", "j", "enter", "r", "n"]) :
    m.update (Msg.keyMsg k) = (m, none) ∧
    (m.update (Msg.keyMsg "esc")).2 = none ∧
    ((m.update (Msg.keyMsg "esc")).1 = m ∨
     (m.update (Msg.keyMsg "esc")).1 = { m with currentView := ViewType.PodView }) := by
  refine ⟨?_, rfl, ?_⟩
  · fin_cases hk <;> simp [Model.update, handleKey, moveUp, moveDown, enterKey, hl]
  · cases hv : m.currentView with
    | PodView => left; simp [Model.update, handleKey, hv]
    | ServiceView => left; simp [Model.update, handleKey, hv]
    | DetailView => right; simp [Model.update, handleKey, hv]
    | NamespaceView => right; simp [Model.update, handleKey, hv]

/-- Claim C3, witness: the initial model is loading, and the `refresh`
input leaves it untouched. -/
theorem C3_loading_inert_witness :
    Model.new.update (Msg.keyMsg "r") = (Model.new, none) ∧
    (Model.new.update (Msg.keyMsg "esc")).2 = none ∧
    ((Model.new.update (Msg.keyMsg "esc")).1 = Model.new ∨
     (Model.new.update (Msg.keyMsg "esc")).1 =
       { Model.new with currentView := ViewType.PodView }) :=
  C3_loading_inert Model.new "r" rfl (by decide)

/-- Claim C4, counterexample.  `pickerSecond` is the spec's own
partition-switch scenario (happy path, `open-partition-picker`,
`move-down`): `NamespaceView`, not loading, two namespaces, selection on
the second.  `activate` adopts `"kube-system"` and switches to
`PodView`, but `selectedIndex` is left at 1 — the claimed reset to 0
does not happen. -/
theorem C4_counterexample :
    pickerSecond.currentView = ViewType.NamespaceView ∧
    pickerSecond.loading = false ∧
    pickerSecond.namespaces = ["default", "kube-system"] ∧
    pickerSecond.selectedItem = 1 ∧
    (pickerSecond.update (Msg.keyMsg "enter")).1.selectedItem ≠ 0 ∧
    (pickerSecond.update (Msg.keyMsg "enter")).1.currentNS = "kube-system" ∧
    (pickerSecond.update (Msg.keyMsg "enter")).1.currentView = ViewType.PodView := by
  refine ⟨rfl, rfl, rfl, rfl, ?_, rfl, rfl⟩
  decide

/-- Claim C4, amended.  In `NamespaceView` with `loading = false` and a
non-empty namespace list, `activate` sets `currentNS` to the namespace
at `selectedItem`, sets `loading`, schedules the resource fetch for the
new namespace and switches to `PodView` — but `selectedItem` keeps its
value; it is not reset to 0. -/
theorem C4_activate_partition (m : Model) (h1 : m.currentView = ViewType.NamespaceView)
    (h2 : m.loading = false) (h3 : m.namespaces ≠ []) :
    m.update (Msg.keyMsg "enter") =
      ({ m with currentNS := m.namespaces.getD m.selectedItem "",
                currentView := ViewType.PodView, loading := true,
                message := "Switching to namespace: " ++
                  m.namespaces.getD m.selectedItem "" },
       some (Cmd.getResources (m.namespaces.getD m.selectedItem ""))) ∧
    (m.update (Msg.keyMsg "enter")).1.selectedItem = m.selectedItem := by
  have hlen : m.namespaces.length > 0 := List.length_pos.mpr h3
  have h : m.update (Msg.keyMsg "enter") =
      ({ m with currentNS := m.namespaces.getD m.selectedItem "",
                currentView := ViewType.PodView, loading := true,
                message := "Switching to namespace: " ++
                  m.namespaces.getD m.selectedItem "" },
       some (Cmd.getResources (m.namespaces.getD m.selectedItem ""))) := by
    simp [Model.update, handleKey, enterKey, h1, h2, hlen]
  exact ⟨h, by rw [h]⟩

/-- Claim C4, witness: the amended transition evaluated on
`pickerSecond`, where the chosen namespace is `"kube-system"`. -/
theorem C4_activate_partition_witness :
    pickerSecond.update (Msg.keyMsg "enter") =
      ({ pickerSecond with
          currentNS := pickerSecond.namespaces.getD pickerSecond.selectedItem "",
          currentView := ViewType.PodView, loading := true,
          message := "Switching to namespace: " ++
            pickerSecond.namespaces.getD pickerSecond.selectedItem "" },
       some (Cmd.getResources (pickerSecond.namespaces.getD pickerSecond.selectedItem ""))) ∧
    (pickerSecond.update (Msg.keyMsg "enter")).1.selectedItem =
      pickerSecond.selectedItem :=
  C4_activate_partition pickerSecond rfl rfl (by decide)

/-- Claim C5, counterexample.  After `absentNsTrace` the active
namespace `"default"` is absent from the fetched namespace list
`["kube-system"]` and the pod selection sits at 1.  Opening the picker
(`"n"`) enters `NamespaceView` but leaves `selectedIndex` at 1 — it is
not reset to 0 as the claim requires when the active partition is
absent. -/
theorem C5_counterexample :
    (runMsgs Model.new absentNsTrace).loading = false ∧
    (runMsgs Model.new absentNsTrace).currentNS = "default" ∧
    (runMsgs Model.new absentNsTrace).namespaces = ["kube-system"] ∧
    ((runMsgs Model.new absentNsTrace).update (Msg.keyMsg "n")).1.currentView =
      ViewType.NamespaceView ∧
    ((runMsgs Model.new absentNsTrace).update (Msg.keyMsg "n")).1.selectedItem ≠ 0 := by
  refine ⟨rfl, rfl, rfl, rfl, ?_⟩
  decide

/-- Claim C5, amended.  With `loading = false`, `open-partition-picker`
switches to `NamespaceView` and sets `selectedIndex` to the index of the
first occurrence of `currentNS` in the namespace list when it is
present; when it is absent, `selectedIndex` is left unchanged (not set
to 0). -/
theorem C5_picker (m : Model) (h : m.loading = false) :
    (m.update (Msg.keyMsg "n")).1.currentView = ViewType.NamespaceView ∧
    (m.update (Msg.keyMsg "n")).2 = none ∧
    (m.currentNS ∉ m.namespaces →
      (m.update (Msg.keyMsg "n")).1.selectedItem = m.selectedItem) ∧
    (m.currentNS ∈ m.namespaces →
      (m.update (Msg.keyMsg "n")).1.selectedItem < m.namespaces.length ∧
      m.namespaces.getD ((m.update (Msg.keyMsg "n")).1.selectedItem) "" = m.currentNS) := by
  refine ⟨?_, rfl, ?_, ?_⟩
  · simp [Model.update, handleKey, h]
  · intro hmem
    simp [Model.update, handleKey, h, findIdxFrom_eq_none m.currentNS m.namespaces hmem 0]
  · intro hmem
    obtain ⟨j, hfind, hlt, hget⟩ := findIdxFrom_eq_some m.currentNS m.namespaces hmem 0
    simp only [Nat.zero_add] at hfind
    have hsel : (m.update (Msg.keyMsg "n")).1.selectedItem = j := by
      simp [Model.update, handleKey, h, hfind]
    rw [hsel]
    exact ⟨hlt, hget⟩

/-- Claim C5, witness: opening the picker at the happy-path end state
(where `"default"` is the first namespace in the list). -/
theorem C5_picker_witness :
    ((runMsgs Model.new startupOk).update (Msg.keyMsg "n")).1.currentView =
      ViewType.NamespaceView ∧
    ((runMsgs Model.new startupOk).update (Msg.keyMsg "n")).2 = none ∧
    ((runMsgs Model.new startupOk).currentNS ∉ (runMsgs Model.new startupOk).namespaces →
      ((runMsgs Model.new startupOk).update (Msg.keyMsg "n")).1.selectedItem =
        (runMsgs Model.new startupOk).selectedItem) ∧
    ((runMsgs Model.new startupOk).currentNS ∈ (runMsgs Model.new startupOk).namespaces →
      ((runMsgs Model.new startupOk).update (Msg.keyMsg "n")).1.selectedItem <
        (runMsgs Model.new startupOk).namespaces.length ∧
      (runMsgs Model.new startupOk).namespaces.getD
        (((runMsgs Model.new startupOk).update (Msg.keyMsg "n")).1.selectedItem) "" =
        (runMsgs Model.new startupOk).currentNS) :=
  C5_picker (runMsgs Model.new startupOk) rfl

/-- Claim C6, counterexample.  Before the detail fetch is issued the
engine is in `PodView`; issuing it (`activate`) moves to `DetailView`,
and the failed completion leaves the view there.  The final view is
therefore not "exactly as it was before the fetch was issued": the claim
over-promises about the view (all fetched data is indeed preserved). -/
theorem C6_counterexample :
    (runMsgs Model.new startupOk).currentView = ViewType.PodView ∧
    (runMsgs Model.new detailFailTrace).loading = false ∧
    (runMsgs Model.new detailFailTrace).error = "Error fetching pod details: boom" ∧
    (runMsgs Model.new detailFailTrace).currentView = ViewType.DetailView ∧
    (runMsgs Model.new detailFailTrace).currentView ≠
      (runMsgs Model.new startupOk).currentView := by
  refine ⟨rfl, rfl, rfl, rfl, ?_⟩
  decide

/-- Claim C6, amended.  A failed partition-list, resource-snapshot or
detail completion sets `loading := false`, sets `errorMessage`, and
changes nothing else; all previously fetched data (`namespaces`,
`resourceData`, `detailContent`) survives the whole issue-then-fail
round trip untouched, and two consecutive failed resource-snapshot
completions leave `resourceData` identical to its value before either
failure.  (The view, however, stays where the *issuing* input put it —
a failed detail fetch leaves the engine in `DetailView`, not in the view
it had before the fetch was issued.) -/
theorem C6_failure_frame (m : Model) (e e2 s : String) (ns : List String)
    (d d2 : ResourceData) :
    m.update (Msg.namespacesMsg ns (some e)) =
      ({ m with loading := false, error := "Error fetching namespaces: " ++ e }, none) ∧
    m.update (Msg.resourcesMsg d (some e)) =
      ({ m with loading := false, error := "Error fetching resources: " ++ e }, none) ∧
    m.update (Msg.podDetailMsg s (some e)) =
      ({ m with loading := false, error := "Error fetching pod details: " ++ e }, none) ∧
    m.update (Msg.serviceDetailMsg s (some e)) =
      ({ m with loading := false, error := "Error fetching service details: " ++ e }, none) ∧
    (((m.update (Msg.keyMsg "r")).1.update (Msg.resourcesMsg d (some e))).1.resourceData =
        m.resourceData ∧
      ((m.update (Msg.keyMsg "r")).1.update (Msg.resourcesMsg d (some e))).1.namespaces =
        m.namespaces ∧
      ((m.update (Msg.keyMsg "r")).1.update (Msg.resourcesMsg d (some e))).1.detailContent =
        m.detailContent) ∧
    (((m.update (Msg.keyMsg "enter")).1.update (Msg.podDetailMsg s (some e))).1.resourceData =
        m.resourceData ∧
      ((m.update (Msg.keyMsg "enter")).1.update (Msg.podDetailMsg s (some e))).1.namespaces =
        m.namespaces ∧
      ((m.update (Msg.keyMsg "enter")).1.update (Msg.podDetailMsg s (some e))).1.detailContent =
        m.detailContent) ∧
    ((m.update (Msg.resourcesMsg d (some e))).1.update
        (Msg.resourcesMsg d2 (some e2))).1.resourceData = m.resourceData := by
  refine ⟨rfl, rfl, rfl, rfl, ?_, ?_, rfl⟩
  · by_cases hl : m.loading <;> simp [Model.update, handleKey, hl]
  · obtain ⟨hrd, hns, hdc⟩ := enterKey_data_frame m
    exact ⟨hrd, hns, hdc⟩

/-- Claim C7: single-flight discipline.  In every reachable loop state,
while `loading` is set no key press schedules anything except `quit`,
and a key press never replaces the fetch already in flight — the engine
has at most one semantically meaningful pending fetch at all times. -/
theorem C7_single_flight (s : LoopState) (hs : Reachable s) (k : String) :
    (s.model.loading = true →
      (s.model.update (Msg.keyMsg k)).2 = none ∨
      (s.model.update (Msg.keyMsg k)).2 = some Cmd.quit) ∧
    (∀ c, s.pending = some c → (stepInput s k).pending = some c) := by
  constructor
  · intro hl
    exact (handleKey_loading_blocks s.model k hl).1
  · intro c hp
    have hl : s.model.loading = true :=
      reachable_pending_loading s hs (by simp [hp])
    rcases (handleKey_loading_blocks s.model k hl).1 with h2 | h2 <;>
      simp [stepInput, Model.update, h2, Cmd.isFetch, hp]

/-- Claim C7, witness: at startup the connection fetch is pending, and a
`refresh` key press leaves it pending. -/
theorem C7_single_flight_witness :
    (stepInput ⟨Model.new, some Cmd.initK8sClient⟩ "r").pending =
      some Cmd.initK8sClient :=
  (C7_single_flight ⟨Model.new, some Cmd.initK8sClient⟩ Reachable.init "r").2
    Cmd.initK8sClient rfl

/-- Claim C8: the startup protocol.  `Init` schedules the connection;
a successful connection schedules context resolution; context
resolution — failed or not — schedules the namespace fetch, a failure
substituting the `"unknown-context"` sentinel; a successful namespace
fetch schedules the resource fetch; a failed connection or namespace
fetch sets `errorMessage`, clears `loading` and schedules nothing; the
snapshot completion clears `loading` either way. -/
theorem C8_startup_protocol (m : Model) (c : K8sClient) (ctx e : String)
    (ns : List String) (d : ResourceData) :
    m.initCmd = some Cmd.initK8sClient ∧
    m.update (Msg.k8sClientMsg c none) =
      ({ m with client := some c, message := "Getting context information..." },
       some Cmd.getContextInfo) ∧
    m.update (Msg.k8sClientMsg c (some e)) =
      ({ m with loading := false,
                error := "Error connecting to Kubernetes: " ++ e }, none) ∧
    m.update (Msg.contextInfoMsg ctx none) =
      ({ m with context := ctx, message := "Fetching namespaces..." },
       some Cmd.getNamespaces) ∧
    m.update (Msg.contextInfoMsg ctx (some e)) =
      ({ m with context := "unknown-context", message := "Fetching namespaces..." },
       some Cmd.getNamespaces) ∧
    m.update (Msg.namespacesMsg ns none) =
      ({ m with namespaces := ns, message := "Fetching resources..." },
       some (Cmd.getResources m.currentNS)) ∧
    m.update (Msg.namespacesMsg ns (some e)) =
      ({ m with loading := false,
                error := "Error fetching namespaces: " ++ e }, none) ∧
    (m.update (Msg.resourcesMsg d none)).1.loading = false ∧
    (m.update (Msg.resourcesMsg d (some e))).1.loading = false ∧
    (m.update (Msg.resourcesMsg d (some e))).2 = none :=
  ⟨rfl, rfl, rfl, rfl, rfl, rfl, rfl, rfl, rfl, rfl⟩

/-- Claim C9: the `back` input (`esc`) from `DetailView` or
`NamespaceView` goes to `PodView` and changes nothing else — the record
equality pins every other field, so `detailContent`, `selectedItem`,
`namespaces`, `currentNS` and `resourceData` are all untouched. -/
theorem C9_back_no_data_change (m : Model)
    (h : m.currentView = ViewType.DetailView ∨ m.currentView = ViewType.NamespaceView) :
    m.update (Msg.keyMsg "esc") = ({ m with currentView := ViewType.PodView }, none) := by
  rcases h with h | h <;> simp [Model.update, handleKey, h]

/-- Claim C9, witness: `back` out of the reachable detail-drill state
returns to `PodView` with every data field intact. -/
theorem C9_back_witness :
    detailPending.update (Msg.keyMsg "esc") =
      ({ detailPending with currentView := ViewType.PodView }, none) :=
  C9_back_no_data_change detailPending (Or.inl rfl)

/-- Claim C10: a successful resource-snapshot completion mutates only
`loading` and `resourceData`; `currentView`, `selectedItem`,
`currentNS`, `errorMessage` and `detailContent` are all left unchanged —
in particular `selectedItem` is neither reset nor clamped to the new
list lengths. -/
theorem C10_snapshot_success_frame (m : Model) (d : ResourceData) :
    m.update (Msg.resourcesMsg d none) =
      ({ m with loading := false, resourceData := d }, none) ∧
    (m.update (Msg.resourcesMsg d none)).1.selectedItem = m.selectedItem ∧
    (m.update (Msg.resourcesMsg d none)).1.currentView = m.currentView ∧
    (m.update (Msg.resourcesMsg d none)).1.currentNS = m.currentNS ∧
    (m.update (Msg.resourcesMsg d none)).1.error = m.error ∧
    (m.update (Msg.resourcesMsg d none)).1.detailContent = m.detailContent :=
  ⟨rfl, rfl, rfl, rfl, rfl, rfl⟩
